import Mathlib

/-!
Shallow embedding of `src/app-check/index.ts` (the VueFire AppCheck module).

Modelling choices, all read directly off the source:

* A Firebase app (the "host handle") is identified by a `Nat`.  `useFirebaseApp
  (name)` resolves a name to the app instance; we let the `Nat` stand for both,
  since the module only ever uses the resolved app as a `WeakMap` key.
* An `AppCheck` client (the opaque SDK handle returned by `initializeAppCheck`)
  is identified by a `Nat`; a fresh id is allocated at each initialize call
  (`nextClient` plays the allocator), so distinct initializations yield
  distinct (non-identical) client objects, as in JS.
* `ref<string>()` is a mutable cell starting out `undefined`: `Option String`
  with `none` for `undefined`.  `app.provide(AppCheckTokenInjectSymbol, token)`
  is modelled by the per-app `provided` map (the module provides at most this
  one key per app); `inject` reads it, `none` meaning "never provided".
* `self.FIREBASE_APPCHECK_DEBUG_TOKEN` is the process-wide `debugGlobal`;
  it stores the exact JS value written (`boolean | string`), `none` if unset.
* The `onTokenChanged` subscription installs the callback
  `(newToken) => { token.value = newToken.token }`; `subscribed` records whether
  it is active for an app, and `deliverTokenChanged` is the SDK delivering one
  notification to that callback.
* Truthiness of `options.debug` (`if (options.debug)`) follows JavaScript:
  `undefined` and `false` and the empty string are falsy, every other
  `boolean | string` value is truthy.
* The setup closure additionally emits a `SetupEvent` trace so that ordering
  facts ("the debug global is written before `initializeAppCheck` is called")
  and frame facts ("no SDK call is made on the server") are statable; the
  `sdkInitCall` event records the value of the debug global at the moment of
  the call.
-/

/-- The JS value of the `debug?: boolean | string` option of
`VueFireAppCheckOptions`: absent (`undefined`), a boolean, or a string. -/
inductive DebugOpt where
  | undef : DebugOpt
  | bool (b : Bool) : DebugOpt
  | str (s : String) : DebugOpt
deriving DecidableEq, Repr

/-- JavaScript truthiness of the `debug` option, as tested by
`if (options.debug)`: `undefined`, `false` and `""` are falsy. -/
def DebugOpt.truthy : DebugOpt → Bool
  | .undef => false
  | .bool b => b
  | .str s => !(s == "")

/-- `VueFireAppCheckOptions`: the SDK's own options are opaque and never
inspected by the module, so only the extra `debug` field is modelled. -/
structure VueFireAppCheckOptions where
  debug : DebugOpt
deriving DecidableEq, Repr

/-- The contents of the `ref<string>()` token cell: `none` is `undefined`
(no token observed yet). -/
abbrev TokenCell := Option String

/-- The mutable state the module touches: the `AppCheckMap` registry
(`WeakMap<FirebaseApp, AppCheck>`), the per-app provided token cell
(`app.provide(AppCheckTokenInjectSymbol, token)`), whether the
`onTokenChanged` subscription is active for an app, the process-wide
`self.FIREBASE_APPCHECK_DEBUG_TOKEN` global, and the allocator for fresh
SDK client objects. -/
structure ModuleState where
  appCheckMap : Nat → Option Nat
  provided : Nat → Option TokenCell
  subscribed : Nat → Bool
  debugGlobal : Option DebugOpt
  nextClient : Nat

/-- The state before the module ever ran: empty registry, nothing provided,
no subscription, debug global unset. -/
def initState : ModuleState where
  appCheckMap := fun _ => none
  provided := fun _ => none
  subscribed := fun _ => false
  debugGlobal := none
  nextClient := 0

/-- Observable events of one run of the setup closure, in order:
providing the cell, writing the debug global, the `initializeAppCheck` SDK
call (recording the debug global's value at the moment of the call), the
`onTokenChanged` SDK call, and the `AppCheckMap.set` registration. -/
inductive SetupEvent where
  | provideCell (app : Nat) : SetupEvent
  | setDebugGlobal (v : DebugOpt) : SetupEvent
  | sdkInitCall (app : Nat) (debugGlobalAtCall : Option DebugOpt) : SetupEvent
  | sdkSubscribe (app : Nat) (client : Nat) : SetupEvent
  | registrySet (app : Nat) (client : Nat) : SetupEvent
deriving DecidableEq, Repr

/-- The closure returned by `VueFireAppCheck(options)`, applied to a Firebase
app in an environment where `isClient` holds or not.  Mirrors the source
line by line:

* `if (!isClient) return` — nothing at all happens on the server;
* `const token = ...ref<string>(); app.provide(AppCheckTokenInjectSymbol, token)`;
* `if (options.debug) { self.FIREBASE_APPCHECK_DEBUG_TOKEN = options.debug }`;
* `const appCheck = initializeAppCheck(firebaseApp, options)`;
* `onTokenChanged(appCheck, (newToken) => { token.value = newToken.token })`;
* `AppCheckMap.set(firebaseApp, appCheck)`.

Returns the new state together with the event trace of the run. -/
def VueFireAppCheck (options : VueFireAppCheckOptions) (isClient : Bool)
    (firebaseApp : Nat) (st : ModuleState) : ModuleState × List SetupEvent :=
  if !isClient then (st, [])
  else
    let st1 : ModuleState :=
      { st with provided := fun a =>
          if a = firebaseApp then some (none : TokenCell) else st.provided a }
    let ev1 : List SetupEvent := [SetupEvent.provideCell firebaseApp]
    let st2 : ModuleState :=
      if options.debug.truthy then { st1 with debugGlobal := some options.debug }
      else st1
    let ev2 : List SetupEvent :=
      if options.debug.truthy then [SetupEvent.setDebugGlobal options.debug]
      else []
    let appCheck : Nat := st2.nextClient
    let st3 : ModuleState := { st2 with nextClient := st2.nextClient + 1 }
    let ev3 : List SetupEvent := [SetupEvent.sdkInitCall firebaseApp st2.debugGlobal]
    let st4 : ModuleState :=
      { st3 with subscribed := fun a =>
          if a = firebaseApp then true else st3.subscribed a }
    let ev4 : List SetupEvent := [SetupEvent.sdkSubscribe firebaseApp appCheck]
    let st5 : ModuleState :=
      { st4 with appCheckMap := fun a =>
          if a = firebaseApp then some appCheck else st4.appCheckMap a }
    let ev5 : List SetupEvent := [SetupEvent.registrySet firebaseApp appCheck]
    (st5, ev1 ++ ev2 ++ ev3 ++ ev4 ++ ev5)

/-- The SDK delivering one token-change notification for an app whose
subscription is active: the installed callback
`(newToken) => { token.value = newToken.token }` overwrites the cell the
setup closure captured (the provided one) with the notification's token.
Without an active subscription nothing happens. -/
def deliverTokenChanged (st : ModuleState) (firebaseApp : Nat) (tok : String) :
    ModuleState :=
  if st.subscribed firebaseApp then
    { st with provided := fun a =>
        if a = firebaseApp then (st.provided a).map (fun _ => some tok)
        else st.provided a }
  else st

/-- A sequence of token-change notifications for one app, delivered in order. -/
def deliverTokenSeq (st : ModuleState) (firebaseApp : Nat) (toks : List String) :
    ModuleState :=
  toks.foldl (fun s t => deliverTokenChanged s firebaseApp t) st

/-- A sequence of token-change notifications for arbitrary apps. -/
def deliverTokenEvents (st : ModuleState) (evs : List (Nat × String)) :
    ModuleState :=
  evs.foldl (fun s e => deliverTokenChanged s e.1 e.2) st

/-- `useAppCheck(name)`: `return AppCheckMap.get(useFirebaseApp(name))!`.
The `!` is a TypeScript non-null assertion, erased at runtime: the value
actually returned is whatever `WeakMap.get` yields, `undefined` (`none`)
included. -/
def useAppCheck (st : ModuleState) (name : Nat) : Option Nat :=
  st.appCheckMap name

/-- `useAppCheckToken()`: `inject(AppCheckTokenInjectSymbol)!` — reads the
provided cell of the app (again a compile-time-only `!`): `none` when the
symbol was never provided for this app. -/
def useAppCheckToken (st : ModuleState) (app : Nat) : Option TokenCell :=
  st.provided app

/-- The SDK's `AppCheckTokenResult`: `{ token: string }`. -/
structure AppCheckTokenResult where
  token : String
deriving DecidableEq, Repr

/-- `getAppCheckToken(name, forceRefresh)`:

```
const appCheck = useAppCheck(name)
return appCheck ? getToken(appCheck, forceRefresh) : Promise.resolve({ token: '' })
```

The SDK's `getToken` is an external collaborator, passed in as an oracle
`sdkGetToken`; its settled promise is an `Except` (rejected / resolved).
A present client object is always truthy in JS, so the ternary is a match on
`useAppCheck`'s option. -/
def getAppCheckToken
    (sdkGetToken : Nat → Option Bool → Except String AppCheckTokenResult)
    (st : ModuleState) (name : Nat) (forceRefresh : Option Bool) :
    Except String AppCheckTokenResult :=
  match useAppCheck st name with
  | some appCheck => sdkGetToken appCheck forceRefresh
  | none => Except.ok { token := "" }

/-- `useAppCheck` in state-passing form: the source body is one `WeakMap.get`
(plus the read-only `useFirebaseApp` resolution), so the state comes back
untouched. -/
def useAppCheckSt (st : ModuleState) (name : Nat) : Option Nat × ModuleState :=
  (st.appCheckMap name, st)

/-- A sequence of setup runs: each entry gives the options, the `isClient`
flag of the environment, and the Firebase app it targets. -/
def runSetups (ops : List (VueFireAppCheckOptions × Bool × Nat))
    (st : ModuleState) : ModuleState :=
  ops.foldl (fun s op => (VueFireAppCheck op.1 op.2.1 op.2.2 s).1) st

/-- The state after one client-mode setup for app `0` with no debug option:
client `0` is registered, the cell is provided and unset. -/
def stOnce : ModuleState := (VueFireAppCheck ⟨DebugOpt.undef⟩ true 0 initState).1

/-- The state after a second client-mode setup for the same app `0`. -/
def stTwice : ModuleState := (VueFireAppCheck ⟨DebugOpt.undef⟩ true 0 stOnce).1

/-- A state in which the debug global already holds a value, to observe that
a falsy `debug` option leaves it alone. -/
def stWithGlobal : ModuleState :=
  { initState with debugGlobal := some (DebugOpt.str "old") }

/-- A client-mode setup provides a fresh, unset token cell for its app. -/
theorem setup_client_provided (o : VueFireAppCheckOptions) (fb : Nat)
    (st : ModuleState) :
    (VueFireAppCheck o true fb st).1.provided fb = some none := by
  by_cases h : o.debug.truthy = true <;> simp [VueFireAppCheck, h]

/-- A client-mode setup starts the `onTokenChanged` subscription for its app. -/
theorem setup_client_subscribed (o : VueFireAppCheckOptions) (fb : Nat)
    (st : ModuleState) :
    (VueFireAppCheck o true fb st).1.subscribed fb = true := by
  by_cases h : o.debug.truthy = true <;> simp [VueFireAppCheck, h]

/-- A client-mode setup registers the freshly initialized client under its
app in `AppCheckMap`. -/
theorem setup_client_appCheckMap (o : VueFireAppCheckOptions) (fb : Nat)
    (st : ModuleState) :
    (VueFireAppCheck o true fb st).1.appCheckMap fb = some st.nextClient := by
  by_cases h : o.debug.truthy = true <;> simp [VueFireAppCheck, h]

/-- Setup never touches the `AppCheckMap` entry of a different app. -/
theorem setup_other_appCheckMap (o : VueFireAppCheckOptions) (c : Bool)
    (fb : Nat) (st : ModuleState) (a : Nat) (ha : a ≠ fb) :
    (VueFireAppCheck o c fb st).1.appCheckMap a = st.appCheckMap a := by
  cases c
  · rfl
  · by_cases h : o.debug.truthy = true <;> simp [VueFireAppCheck, h, ha]

/-- Delivering a notification never touches the registry. -/
theorem deliver_appCheckMap (st : ModuleState) (fb : Nat) (tok : String) :
    (deliverTokenChanged st fb tok).appCheckMap = st.appCheckMap := by
  by_cases h : st.subscribed fb = true <;> simp [deliverTokenChanged, h]

/-- Delivering a notification never touches the subscription flags. -/
theorem deliver_subscribed (st : ModuleState) (fb : Nat) (tok : String) :
    (deliverTokenChanged st fb tok).subscribed = st.subscribed := by
  by_cases h : st.subscribed fb = true <;> simp [deliverTokenChanged, h]

/-- A whole sequence of notifications never touches the registry. -/
theorem deliverEvents_appCheckMap (evs : List (Nat × String)) (st : ModuleState) :
    (deliverTokenEvents st evs).appCheckMap = st.appCheckMap := by
  induction evs generalizing st with
  | nil => rfl
  | cons e es ih =>
      simp only [deliverTokenEvents, List.foldl_cons] at *
      rw [ih, deliver_appCheckMap]

/-- With an active subscription, a notification sequence ending in `t`
leaves the app's cell (if provided) holding exactly `t`. -/
theorem deliverSeq_last_write (toks : List String) (st : ModuleState) (fb : Nat)
    (t : String) (hs : st.subscribed fb = true) :
    (deliverTokenSeq st fb (toks ++ [t])).provided fb
      = (st.provided fb).map (fun _ => some t) := by
  induction toks generalizing st with
  | nil => simp [deliverTokenSeq, deliverTokenChanged, hs]
  | cons t0 ts ih =>
      have hs0 : (deliverTokenChanged st fb t0).subscribed fb = true := by
        rw [deliver_subscribed]; exact hs
      have step : (t0 :: ts) ++ [t] = t0 :: (ts ++ [t]) := rfl
      rw [step]
      simp only [deliverTokenSeq, List.foldl_cons] at *
      rw [ih _ hs0]
      simp [deliverTokenChanged, hs]
      cases st.provided fb <;> simp

/-- A sequence of setup runs, none of which targets `hdl`, leaves the
`AppCheckMap` entry of `hdl` alone. -/
theorem runSetups_other_appCheckMap
    (ops : List (VueFireAppCheckOptions × Bool × Nat)) (hdl : Nat)
    (st : ModuleState) (hh : ∀ op ∈ ops, op.2.2 ≠ hdl) :
    (runSetups ops st).appCheckMap hdl = st.appCheckMap hdl := by
  induction ops generalizing st with
  | nil => rfl
  | cons op opsTail ih =>
      simp only [runSetups, List.foldl_cons] at *
      rw [ih ((VueFireAppCheck op.1 op.2.1 op.2.2 st).1)
            (fun p hp => hh p (List.mem_cons_of_mem _ hp))]
      exact setup_other_appCheckMap op.1 op.2.1 op.2.2 st hdl
        (fun e => hh op (List.mem_cons_self _ _) e.symm)

/-- Claim C1 (code behavior at the failing input): in a non-client
environment the Token Mirror subscription is indeed not started, but the
TokenCell is NOT provided either: the closure returns at the
`if (!isClient) return` guard, which in this source PRECEDES the
`app.provide(AppCheckTokenInjectSymbol, token)` line — even though the
comment on that very line says "provide this even on the server for
simplicity of usage".  So a consumer reading the cell on the server gets
nothing at all (`inject` finds no provided value), contradicting the
claim's "the TokenCell is still provided to consumers". -/
theorem server_setup_provides_no_cell :
    useAppCheckToken (VueFireAppCheck ⟨DebugOpt.str "tok"⟩ false 0 initState).1 0
        = none
    ∧ (VueFireAppCheck ⟨DebugOpt.str "tok"⟩ false 0 initState).1.subscribed 0
        = false :=
  ⟨rfl, rfl⟩

/-- Claim C2 (counterexample): for the concretely never-set-up handle `0`,
`useAppCheck` returns the absent value (`undefined`, here `none`) with no
hard failure of any kind — the `!` in
`AppCheckMap.get(useFirebaseApp(name))!` is a compile-time-only assertion.
The second conjunct shows the absence flowing onward silently:
`getAppCheckToken` branches on exactly this `undefined` and succeeds. -/
theorem useAppCheck_uninitialized_counterexample :
    useAppCheck initState 0 = none ∧
    getAppCheckToken (fun _ _ => Except.error "boom") initState 0 none
      = Except.ok ⟨""⟩ :=
  ⟨rfl, rfl⟩

/-- Claim C2 (amended): for every handle never passed to setup — whatever
setups ran for other handles — `useAppCheck` returns the absent value
(`undefined`) rather than raising an error; the non-null assertion in its
body is erased at runtime, so there is no hard failure. -/
theorem useAppCheck_uninitialized_returns_undefined
    (ops : List (VueFireAppCheckOptions × Bool × Nat)) (hdl : Nat)
    (hh : ∀ op ∈ ops, op.2.2 ≠ hdl) :
    useAppCheck (runSetups ops initState) hdl = none := by
  unfold useAppCheck
  rw [runSetups_other_appCheckMap ops hdl initState hh]
  rfl

/-- Claim C2 witness: two client-mode setups for handles `1` and `2` leave
`useAppCheck` at handle `0` returning the absent value. -/
theorem useAppCheck_uninitialized_returns_undefined_witness :
    (∀ op ∈ [(VueFireAppCheckOptions.mk (DebugOpt.str "tok"), true, 1),
             (VueFireAppCheckOptions.mk (DebugOpt.bool true), true, 2)],
        op.2.2 ≠ 0) ∧
    useAppCheck
      (runSetups
        [(VueFireAppCheckOptions.mk (DebugOpt.str "tok"), true, 1),
         (VueFireAppCheckOptions.mk (DebugOpt.bool true), true, 2)]
        initState) 0 = none :=
  ⟨by decide,
   useAppCheck_uninitialized_returns_undefined
     [(VueFireAppCheckOptions.mk (DebugOpt.str "tok"), true, 1),
      (VueFireAppCheckOptions.mk (DebugOpt.bool true), true, 2)] 0 (by decide)⟩

/-- Claim C3 (confirmed): with no registered client for the handle,
`getAppCheckToken` does not consult the SDK at all (the oracle is
universally quantified, erroring oracles included) and returns the
immediately resolved `{ token: '' }`. -/
theorem getAppCheckToken_no_client_ok_empty
    (sdk : Nat → Option Bool → Except String AppCheckTokenResult)
    (st : ModuleState) (name : Nat) (fr : Option Bool)
    (h : useAppCheck st name = none) :
    getAppCheckToken sdk st name fr = Except.ok ⟨""⟩ := by
  unfold getAppCheckToken
  rw [h]

/-- Claim C3 witness: at the fresh state and handle `5`, even an SDK whose
fetch always rejects is never reached — the result is `ok { token := "" }`. -/
theorem getAppCheckToken_no_client_ok_empty_witness :
    useAppCheck initState 5 = none ∧
    getAppCheckToken (fun _ _ => Except.error "network") initState 5 (some true)
      = Except.ok ⟨""⟩ :=
  ⟨rfl, getAppCheckToken_no_client_ok_empty _ initState 5 (some true) rfl⟩

/-- Claim C4 (counterexample): a second client-mode setup for app `0` is not
rejected: the whole routine runs again (its event trace shows a second
`initializeAppCheck` call and a second `AppCheckMap.set`) and the registry
entry is silently replaced — client `0` becomes client `1`. -/
theorem setup_rerun_not_rejected_counterexample :
    stOnce.appCheckMap 0 = some 0 ∧
    stTwice.appCheckMap 0 = some 1 ∧
    stTwice.appCheckMap 0 ≠ some 0 ∧
    (VueFireAppCheck ⟨DebugOpt.undef⟩ true 0 stOnce).2
      = [SetupEvent.provideCell 0, SetupEvent.sdkInitCall 0 none,
         SetupEvent.sdkSubscribe 0 1, SetupEvent.registrySet 0 1] :=
  ⟨rfl, rfl, by decide, rfl⟩

/-- Claim C4 (amended): re-running setup for an already-registered handle is
not rejected and does not preserve the old entry: the routine runs in full —
the SDK initialize call is made again and a `AppCheckMap.set` overwrites the
entry with the freshly initialized client. -/
theorem setup_rerun_overwrites_registry (o : VueFireAppCheckOptions) (fb : Nat)
    (st : ModuleState) (c : Nat) (h : st.appCheckMap fb = some c) :
    (VueFireAppCheck o true fb st).1.appCheckMap fb = some st.nextClient ∧
    SetupEvent.registrySet fb st.nextClient ∈ (VueFireAppCheck o true fb st).2 ∧
    ∃ d, SetupEvent.sdkInitCall fb d ∈ (VueFireAppCheck o true fb st).2 := by
  refine ⟨setup_client_appCheckMap o fb st, ?_, ?_⟩
  · by_cases hd : o.debug.truthy = true <;> simp [VueFireAppCheck, hd]
  · by_cases hd : o.debug.truthy = true
    · exact ⟨some o.debug, by simp [VueFireAppCheck, hd]⟩
    · exact ⟨st.debugGlobal, by simp [VueFireAppCheck, hd]⟩

/-- Claim C4 witness: the amended statement at the concrete re-registration
of app `0` (already holding client `0`). -/
theorem setup_rerun_overwrites_registry_witness :
    stOnce.appCheckMap 0 = some 0 ∧
    ((VueFireAppCheck ⟨DebugOpt.undef⟩ true 0 stOnce).1.appCheckMap 0
        = some stOnce.nextClient ∧
     SetupEvent.registrySet 0 stOnce.nextClient
        ∈ (VueFireAppCheck ⟨DebugOpt.undef⟩ true 0 stOnce).2 ∧
     ∃ d, SetupEvent.sdkInitCall 0 d
        ∈ (VueFireAppCheck ⟨DebugOpt.undef⟩ true 0 stOnce).2) :=
  ⟨rfl, setup_rerun_overwrites_registry ⟨DebugOpt.undef⟩ 0 stOnce 0 rfl⟩

/-- Claim C5 (confirmed): with a registered client, `getAppCheckToken`
delegates to the SDK's `getToken` on exactly that client, passing the
`forceRefresh` flag through unchanged, and returns exactly the SDK's settled
result — the oracle is universally quantified, so resolved values and
rejections alike come back unmodified. -/
theorem getAppCheckToken_delegates_to_sdk
    (sdk : Nat → Option Bool → Except String AppCheckTokenResult)
    (st : ModuleState) (name : Nat) (fr : Option Bool) (c : Nat)
    (h : useAppCheck st name = some c) :
    getAppCheckToken sdk st name fr = sdk c fr := by
  unfold getAppCheckToken
  rw [h]

/-- Claim C5 witness: after one setup, a concrete SDK oracle that
distinguishes `forceRefresh = true` is consulted with that very flag and its
value comes back untouched. -/
theorem getAppCheckToken_delegates_to_sdk_witness :
    useAppCheck stOnce 0 = some 0 ∧
    getAppCheckToken
        (fun _ f => if f = some true then Except.ok ⟨"fresh"⟩
                    else Except.error "nope")
        stOnce 0 (some true)
      = (fun _ f => if f = some true then Except.ok ⟨"fresh"⟩
                    else Except.error "nope") (0 : Nat) (some true) :=
  ⟨rfl, getAppCheckToken_delegates_to_sdk _ stOnce 0 (some true) 0 rfl⟩

/-- Claim C6 (counterexample): `debug: ""` is a string, yet it is falsy in
JS, so `if (options.debug)` skips the write entirely: after a full
client-mode setup the debug global is still unset, no `setDebugGlobal`
event occurred, and the `initializeAppCheck` call observed the global unset
— not the literal string. -/
theorem debug_empty_string_counterexample :
    (VueFireAppCheck ⟨DebugOpt.str ""⟩ true 0 initState).1.debugGlobal = none ∧
    (VueFireAppCheck ⟨DebugOpt.str ""⟩ true 0 initState).2
      = [SetupEvent.provideCell 0, SetupEvent.sdkInitCall 0 none,
         SetupEvent.sdkSubscribe 0 0, SetupEvent.registrySet 0 0] ∧
    SetupEvent.sdkInitCall 0 (some (DebugOpt.str ""))
        ∉ (VueFireAppCheck ⟨DebugOpt.str ""⟩ true 0 initState).2 ∧
    SetupEvent.setDebugGlobal (DebugOpt.str "")
        ∉ (VueFireAppCheck ⟨DebugOpt.str ""⟩ true 0 initState).2 :=
  ⟨rfl, rfl, by decide, by decide⟩

/-- Claim C6 (amended): when `debug` is a NONEMPTY string `s` (nonemptiness
is what JS truthiness demands of a string), the setup routine writes `s` to
the process-wide debug global before calling `initializeAppCheck`: the
`sdkInitCall` event records that the global held exactly `s` at the moment
of the call, and the `setDebugGlobal s` write is in the trace.  When `debug`
is `true` (truthy but not a string), the global instead holds `true` at the
initialize call — the generic debug mode. -/
theorem debug_global_set_before_client_init (st : ModuleState) (fb : Nat)
    (s : String) (hs : s ≠ "") :
    SetupEvent.sdkInitCall fb (some (DebugOpt.str s))
        ∈ (VueFireAppCheck ⟨DebugOpt.str s⟩ true fb st).2 ∧
    SetupEvent.setDebugGlobal (DebugOpt.str s)
        ∈ (VueFireAppCheck ⟨DebugOpt.str s⟩ true fb st).2 ∧
    SetupEvent.sdkInitCall fb (some (DebugOpt.bool true))
        ∈ (VueFireAppCheck ⟨DebugOpt.bool true⟩ true fb st).2 := by
  have ht : (DebugOpt.str s).truthy = true := by
    simp [DebugOpt.truthy, hs]
  have hb : (DebugOpt.bool true).truthy = true := rfl
  refine ⟨?_, ?_, ?_⟩ <;> simp [VueFireAppCheck, ht, hb]

/-- Claim C6 witness: the amended statement at the concrete token
`"my-token"`. -/
theorem debug_global_set_before_client_init_witness :
    ("my-token" : String) ≠ "" ∧
    (SetupEvent.sdkInitCall 0 (some (DebugOpt.str "my-token"))
        ∈ (VueFireAppCheck ⟨DebugOpt.str "my-token"⟩ true 0 initState).2 ∧
     SetupEvent.setDebugGlobal (DebugOpt.str "my-token")
        ∈ (VueFireAppCheck ⟨DebugOpt.str "my-token"⟩ true 0 initState).2 ∧
     SetupEvent.sdkInitCall 0 (some (DebugOpt.bool true))
        ∈ (VueFireAppCheck ⟨DebugOpt.bool true⟩ true 0 initState).2) :=
  ⟨by decide,
   debug_global_set_before_client_init initState 0 "my-token" (by decide)⟩

/-- Claim C7 (confirmed): after a client-mode setup, any notification
sequence for the app ending with token `t` — repetitions allowed, so there
is no deduplication to observe — leaves the provided token cell holding
exactly `t`: the injected ref exists (`some _`) and its value is `some t`,
the token of the most recent notification, whatever came before. -/
theorem token_cell_last_write_wins (o : VueFireAppCheckOptions) (fb : Nat)
    (st : ModuleState) (toks : List String) (t : String) :
    useAppCheckToken
        (deliverTokenSeq (VueFireAppCheck o true fb st).1 fb (toks ++ [t])) fb
      = some (some t) := by
  unfold useAppCheckToken
  rw [deliverSeq_last_write toks _ fb t (setup_client_subscribed o fb st),
      setup_client_provided o fb st]
  rfl

/-- Claim C8 (confirmed): once setup has run for a previously unregistered
handle, `useAppCheck` returns exactly the client registered by that run —
and still does so after any sequence of token notifications, the only other
mutation the module performs, so every subsequent call yields the identical
client.  The registry maps each handle to at most one client by its very
type (`Nat → Option Nat`), and the state-passing form of the lookup
(`useAppCheckSt`) returns the state untouched: the source body is a single
`WeakMap.get`. -/
theorem useAppCheck_identity_stable (o : VueFireAppCheckOptions) (fb : Nat)
    (st : ModuleState) (evs : List (Nat × String))
    (h : st.appCheckMap fb = none) :
    useAppCheck (deliverTokenEvents (VueFireAppCheck o true fb st).1 evs) fb
        = some st.nextClient
    ∧ useAppCheck (VueFireAppCheck o true fb st).1 fb = some st.nextClient
    ∧ useAppCheckSt (VueFireAppCheck o true fb st).1 fb
        = (some st.nextClient, (VueFireAppCheck o true fb st).1) := by
  have hm := setup_client_appCheckMap o fb st
  refine ⟨?_, hm, ?_⟩
  · unfold useAppCheck
    rw [deliverEvents_appCheckMap, hm]
  · unfold useAppCheckSt
    rw [hm]

/-- Claim C8 witness: the statement at the fresh state, app `0`, and two
concrete notifications. -/
theorem useAppCheck_identity_stable_witness :
    initState.appCheckMap 0 = none ∧
    (useAppCheck
        (deliverTokenEvents (VueFireAppCheck ⟨DebugOpt.undef⟩ true 0 initState).1
          [(0, "abc"), (0, "xyz")]) 0
        = some initState.nextClient
     ∧ useAppCheck (VueFireAppCheck ⟨DebugOpt.undef⟩ true 0 initState).1 0
        = some initState.nextClient
     ∧ useAppCheckSt (VueFireAppCheck ⟨DebugOpt.undef⟩ true 0 initState).1 0
        = (some initState.nextClient,
           (VueFireAppCheck ⟨DebugOpt.undef⟩ true 0 initState).1)) :=
  ⟨rfl,
   useAppCheck_identity_stable ⟨DebugOpt.undef⟩ 0 initState
     [(0, "abc"), (0, "xyz")] rfl⟩

/-- Claim C9 (confirmed): a falsy `debug` option — absent, `false`, or the
empty string — leaves the process-wide debug global exactly as it was, in
either environment; only a truthy `debug` ever writes it. -/
theorem debug_global_unchanged_when_falsy (o : VueFireAppCheckOptions)
    (c : Bool) (fb : Nat) (st : ModuleState) (h : o.debug.truthy = false) :
    (VueFireAppCheck o c fb st).1.debugGlobal = st.debugGlobal := by
  cases c
  · rfl
  · simp [VueFireAppCheck, h]

/-- Claim C9 witness: a client-mode setup with the falsy string `""` leaves
a previously written debug global (`"old"`) untouched. -/
theorem debug_global_unchanged_when_falsy_witness :
    (VueFireAppCheckOptions.mk (DebugOpt.str "")).debug.truthy = false ∧
    (VueFireAppCheck ⟨DebugOpt.str ""⟩ true 3 stWithGlobal).1.debugGlobal
      = stWithGlobal.debugGlobal :=
  ⟨rfl, debug_global_unchanged_when_falsy ⟨DebugOpt.str ""⟩ true 3 stWithGlobal rfl⟩

/-- Claim C10 (confirmed): in a non-client environment the setup closure is
observably a no-op, whatever the options: the returned state is the input
state unchanged (registry, provided cells, subscriptions and debug global
included) and the event trace is empty — no provide, no global write, no
`initializeAppCheck`, no `onTokenChanged`. -/
theorem server_setup_no_effect (o : VueFireAppCheckOptions) (fb : Nat)
    (st : ModuleState) :
    VueFireAppCheck o false fb st = (st, []) := rfl
